import Mathlib

/-!
Verification development for the SPX ATM credit-spread trading bot.

The definitions below are a shallow embedding of the Python source:

* `src/config.py`                         → `SpxBot.Config`
* `src/strategy/strike_calculator.py`     → `SpxBot.round_to_5`, spread strikes
* `src/strategy/pl_calculator.py`         → `SpxBot.clamp`, P/L results
* `src/strategy/position_sizing.py`       → `SpxBot.calculate_position_size`
* `src/strategy/quote_monitor.py`         → `SpxBot.meets_credit_threshold`
* `src/strategy/market_data.py`           → `SpxBot.get_spx_close_price`
* `src/orders/spread_order_placer.py`     → `SpxBot.place_10wide_credit_spread`
* `automate_trading.py`                   → Step-A/Step-B selector, monitor loop,
                                             main dispatch

Prices and credits are embedded as exact rationals (the contracts speak of
two-decimal decimals); machine floats of the source are idealised to `ℚ`.
Contract counts are integers.  Fallible paths return `Option`/`Except`, and
the broker/market-data HTTP layers are passed in explicitly as data so that
every definition is executable.
-/

namespace SpxBot

/-- Configuration, from `src/config.py` (class `Config`).  Only the fields the
strategy core reads are embedded; environment-driven fields are structure
fields so theorems can quantify over the configured values. -/
structure Config where
  DRY_RUN : Bool
  ENABLE_LIVE_TRADING : Bool
  MIN_NET_CREDIT : ℚ
  SLIPPAGE_BUFFER : ℚ
  DAILY_RISK_PCT : ℚ
  MIN_CONTRACTS : ℤ
  MAX_CONTRACTS : ℤ
  SPREAD_WIDTH : ℚ
  deriving Repr, DecidableEq

/-- The default configuration values of `src/config.py`: `DRY_RUN` defaults to
true, `ENABLE_LIVE_TRADING` to false, `MIN_NET_CREDIT = 4.60`,
`SLIPPAGE_BUFFER = 0.10`, `DAILY_RISK_PCT = 0.03`, `MIN_CONTRACTS = 1`,
`MAX_CONTRACTS = 50`, `SPREAD_WIDTH = 10`. -/
def defaultConfig : Config where
  DRY_RUN := true
  ENABLE_LIVE_TRADING := false
  MIN_NET_CREDIT := 23/5
  SLIPPAGE_BUFFER := 1/10
  DAILY_RISK_PCT := 3/100
  MIN_CONTRACTS := 1
  MAX_CONTRACTS := 50
  SPREAD_WIDTH := 10

/-! ## Strike math — `src/strategy/strike_calculator.py` -/

/-- `round_to_5(x) = 5.0 * math.floor((x + 2.5) / 5.0)` from
`strike_calculator.py`. -/
def round_to_5 (x : ℚ) : ℚ := 5 * (⌊(x + 5/2) / 5⌋ : ℤ)

/-- `StrikeCalculator.SPREAD_WIDTH = 10.0`. -/
def StrikeCalculator.SPREAD_WIDTH : ℚ := 10

/-- `StrikeCalculator.calculate_put_spread_strikes`:
`k_short = round_to_5(spx_entry)`, `k_long = k_short - SPREAD_WIDTH`. -/
def calculate_put_spread_strikes (spx_entry : ℚ) : ℚ × ℚ :=
  let k_short := round_to_5 spx_entry
  let k_long := k_short - StrikeCalculator.SPREAD_WIDTH
  (k_short, k_long)

/-- `StrikeCalculator.calculate_call_spread_strikes`:
`k_short = round_to_5(spx_entry)`, `k_long = k_short + SPREAD_WIDTH`. -/
def calculate_call_spread_strikes (spx_entry : ℚ) : ℚ × ℚ :=
  let k_short := round_to_5 spx_entry
  let k_long := k_short + StrikeCalculator.SPREAD_WIDTH
  (k_short, k_long)

/-! ## P/L reconciliation — `src/strategy/pl_calculator.py` -/

/-- `clamp(x, min_val, max_val) = min(max(x, min_val), max_val)` from
`pl_calculator.py`. -/
def clamp (x minVal maxVal : ℚ) : ℚ := min (max x minVal) maxVal

/-- `PLCalculator.SPREAD_WIDTH = 10.0`. -/
def PLCalculator.SPREAD_WIDTH : ℚ := 10

/-- The dictionary returned by the `PLCalculator` methods. -/
structure PLResult where
  settlement_value : ℚ
  pnl_per_spread : ℚ
  total_pnl : ℚ
  deriving Repr, DecidableEq

/-- `PLCalculator.calculate_put_spread_pl`: settlement
`value = clamp(k_short - spx_close, 0, 10)`,
`pnl_per_spread = (c_net_fill - value) * 100`, `total_pnl = pnl_per_spread * qty`. -/
def calculate_put_spread_pl (k_short spx_close c_net_fill : ℚ) (qty : ℤ) : PLResult :=
  let value := clamp (k_short - spx_close) 0 PLCalculator.SPREAD_WIDTH
  let pnl_per_spread := (c_net_fill - value) * 100
  let total_pnl := pnl_per_spread * qty
  { settlement_value := value, pnl_per_spread := pnl_per_spread, total_pnl := total_pnl }

/-- `PLCalculator.calculate_call_spread_pl`: settlement
`value = clamp(spx_close - k_short, 0, 10)`, same P/L formulas. -/
def calculate_call_spread_pl (k_short spx_close c_net_fill : ℚ) (qty : ℤ) : PLResult :=
  let value := clamp (spx_close - k_short) 0 PLCalculator.SPREAD_WIDTH
  let pnl_per_spread := (c_net_fill - value) * 100
  let total_pnl := pnl_per_spread * qty
  { settlement_value := value, pnl_per_spread := pnl_per_spread, total_pnl := total_pnl }

/-! ## Position sizing — `src/strategy/position_sizing.py` -/

/-- The dictionary returned by `PositionSizer.calculate_position_size`. -/
structure SizingResult where
  qty : ℤ
  R_day : ℚ
  maxLossPerSpread : ℚ
  account_equity : ℚ
  deriving Repr, DecidableEq

/-- `PositionSizer.calculate_position_size`:
`r_day = DAILY_RISK_PCT * account_equity`;
`max_loss_per_spread = (SPREAD_WIDTH - c_net) * 100`;
`qty = floor(r_day / max_loss_per_spread) if max_loss_per_spread > 0 else 1`;
then `qty = max(MIN_CONTRACTS, qty)`; then `qty = min(qty, max_cap)` where
`max_cap` is the optional `max_qty_cap` argument, defaulting to
`MAX_CONTRACTS`. -/
def calculate_position_size (cfg : Config) (account_equity c_net : ℚ)
    (max_qty_cap : Option ℤ) : SizingResult :=
  let r_day := cfg.DAILY_RISK_PCT * account_equity
  let max_loss_per_spread := (cfg.SPREAD_WIDTH - c_net) * 100
  let qty0 : ℤ := if max_loss_per_spread > 0 then ⌊r_day / max_loss_per_spread⌋ else 1
  let qty1 := max cfg.MIN_CONTRACTS qty0
  let max_cap := max_qty_cap.getD cfg.MAX_CONTRACTS
  let qty2 := min qty1 max_cap
  { qty := qty2, R_day := r_day, maxLossPerSpread := max_loss_per_spread,
    account_equity := account_equity }

/-! ## Quote monitoring — `src/strategy/quote_monitor.py` and the polling loop
of `monitor_quotes_and_place_order` in `automate_trading.py` -/

/-- The dictionary produced by `QuoteMonitor.get_spread_credit`. -/
structure CreditData where
  C_gross : ℚ
  C_net : ℚ
  short_mid : ℚ
  long_mid : ℚ
  short_bid : ℚ
  short_ask : ℚ
  long_bid : ℚ
  long_ask : ℚ
  deriving Repr, DecidableEq

/-- `QuoteMonitor.meets_credit_threshold`: a falsy (`None`) credit dictionary
yields `False`; otherwise the result is `C_net >= Config.MIN_NET_CREDIT`. -/
def meets_credit_threshold (cfg : Config) (credit_data : Option CreditData) : Bool :=
  match credit_data with
  | none => false
  | some cd => decide (cd.C_net ≥ cfg.MIN_NET_CREDIT)

/-- The polling loop of `monitor_quotes_and_place_order` (`automate_trading.py`
lines 126–250).  Each list element is one tick's `get_spread_credit` result
(`none` when quotes were unavailable); the list holds the readings of the
ticks that occur before the 12:00 deadline, so the empty list is the
deadline being reached, where the source returns `None`.  `place` abstracts
the order-placement-and-logging block executed the first time
`meets_credit_threshold` holds. -/
def monitor_quotes_loop {α : Type} (cfg : Config) (place : CreditData → α) :
    List (Option CreditData) → Option α
  | [] => none
  | reading :: rest =>
    match reading with
    | none => monitor_quotes_loop cfg place rest
    | some cd =>
      if meets_credit_threshold cfg (some cd) then some (place cd)
      else monitor_quotes_loop cfg place rest

/-! ## Candles and the Step-B breakout scan — `automate_trading.py` -/

/-- A 30-minute index candle, the dictionary returned by the market-data
adapter.  `datetime` is the bar-start instant; the source keys candles by an
epoch-milliseconds timestamp, embedded here as minutes since midnight of the
trading day in exchange time (an order-preserving recoding). -/
structure Candle where
  datetime : ℕ
  open_price : ℚ
  high : ℚ
  low : ℚ
  close : ℚ
  deriving Repr, DecidableEq

/-- Bar-start instant of the window beginning at hour `h`, minute `m`,
as minutes since midnight (the recoding of `window_start_ts`). -/
def hm (h m : ℕ) : ℕ := h * 60 + m

/-- The four Step-B candle windows of `step_b_bearish_orl_breakout`
(`automate_trading.py` lines 345–350), each as
`(start_hour, start_minute, end_hour, end_minute)`. -/
def candle_windows : List (ℕ × ℕ × ℕ × ℕ) :=
  [(10, 0, 10, 30), (10, 30, 11, 0), (11, 0, 11, 30), (11, 30, 12, 0)]

/-- The trigger data computed when the Step-B scan declares a breakout
(`automate_trading.py` lines 381–406): `SPX_entry` is the examined bar close
and the CALL-spread strikes are computed once from it. -/
structure StepBTrigger where
  spx_entry : ℚ
  k_short : ℚ
  k_long : ℚ
  deriving Repr, DecidableEq

/-- Builds the Step-B trigger from the breakout bar close, as the source does:
`spx_entry = bar_close`, strikes via `calculate_call_spread_strikes`. -/
def mkStepBTrigger (bar_close : ℚ) : StepBTrigger :=
  let ks := calculate_call_spread_strikes bar_close
  { spx_entry := bar_close, k_short := ks.1, k_long := ks.2 }

/-- The per-window loop of `step_b_bearish_orl_breakout` (`automate_trading.py`
lines 353–412) as implemented: for each window it fetches the candles, skips
the window when none are returned, examines `candles[0]` (the FIRST returned
candle), and declares a breakout when its close is strictly below `orl`,
returning the monitor's result for the trigger; otherwise it proceeds to the
next window.  `fetch` is the `get_30min_candles` result per window and
`monitor` abstracts `monitor_quotes_and_place_order`. -/
def scan_breakout_windows {α : Type} (orl : ℚ) (fetch : ℕ × ℕ × ℕ × ℕ → List Candle)
    (monitor : StepBTrigger → Option α) : List (ℕ × ℕ × ℕ × ℕ) → Option α
  | [] => none
  | w :: rest =>
    match (fetch w).head? with
    | none => scan_breakout_windows orl fetch monitor rest
    | some candle =>
      let bar_close := candle.close
      if bar_close < orl then monitor (mkStepBTrigger bar_close)
      else scan_breakout_windows orl fetch monitor rest

/-- Modelled from the spec: the candle selection that `step_b_bearish_orl_breakout`
is required to perform (spec §4.9 and design note "Candle selection
correctness", also the repository's own `tests/test_candle_selection_fix_mock.py`):
among the returned candles, select the one whose `bar_start` equals the
intended window start, not merely the first returned candle.  This selector
is absent from `automate_trading.py`, which uses `candles[0]`. -/
def select_candle_by_bar_start (w : ℕ × ℕ × ℕ × ℕ) (candles : List Candle) :
    Option Candle :=
  candles.find? (fun c => c.datetime = hm w.1 w.2.1)

/-- Modelled from the spec: the Step-B per-window loop with the required
exact-`bar_start` candle selection in place of `candles[0]`; otherwise
identical to `scan_breakout_windows`. -/
def scan_breakout_windows_by_bar_start {α : Type} (orl : ℚ)
    (fetch : ℕ × ℕ × ℕ × ℕ → List Candle) (monitor : StepBTrigger → Option α) :
    List (ℕ × ℕ × ℕ × ℕ) → Option α
  | [] => none
  | w :: rest =>
    match select_candle_by_bar_start w (fetch w) with
    | none => scan_breakout_windows_by_bar_start orl fetch monitor rest
    | some candle =>
      let bar_close := candle.close
      if bar_close < orl then monitor (mkStepBTrigger bar_close)
      else scan_breakout_windows_by_bar_start orl fetch monitor rest

/-- The Opening Range dictionary published by `OpeningRangeTracker`. -/
structure ORData where
  ORO : ℚ
  ORH : ℚ
  ORL : ℚ
  ORC : ℚ
  deriving Repr, DecidableEq

/-- `step_b_bearish_orl_breakout` (`automate_trading.py` lines 305–412):
returns `None` when `ORC >= ORO` (not bearish); otherwise runs the breakout
scan over the four candle windows with `orl = or_data.ORL`. -/
def step_b_bearish_orl_breakout {α : Type} (or_data : ORData)
    (fetch : ℕ × ℕ × ℕ × ℕ → List Candle) (monitor : StepBTrigger → Option α) :
    Option α :=
  if or_data.ORC ≥ or_data.ORO then none
  else scan_breakout_windows or_data.ORL fetch monitor candle_windows

/-- `step_a_bullish_or` (`automate_trading.py` lines 253–302): returns `None`
when `ORC <= ORO` (not bullish); otherwise computes the PUT strikes from
`SPX_entry = ORC` and returns the monitor's result.  `monitorA` abstracts the
`monitor_quotes_and_place_order` call for the frozen trigger. -/
def step_a_bullish_or {α : Type} (or_data : ORData)
    (monitorA : ℚ × ℚ × ℚ → Option α) : Option α :=
  if or_data.ORC ≤ or_data.ORO then none
  else
    let spx_entry := or_data.ORC
    let ks := calculate_put_spread_strikes spx_entry
    monitorA (spx_entry, ks.1, ks.2)

/-- The Step-A / Step-B dispatch of `main` (`automate_trading.py` lines
641–667): run Step A; if it produced no order, run Step B only when
`ORC < ORO`, otherwise end the day without evaluating Step B.  The returned
flag records whether `step_b_bearish_orl_breakout` was invoked. -/
def main_dispatch {α : Type} (or_data : ORData)
    (monitorA : ℚ × ℚ × ℚ → Option α)
    (fetch : ℕ × ℕ × ℕ × ℕ → List Candle) (monitor : StepBTrigger → Option α) :
    Option α × Bool :=
  match step_a_bullish_or or_data monitorA with
  | some r => (some r, false)
  | none =>
    if or_data.ORC < or_data.ORO then
      (step_b_bearish_orl_breakout or_data fetch monitor, true)
    else
      (none, false)

/-! ## SPX close price — `src/strategy/market_data.py` -/

/-- The candle ordering used by `get_30min_candles`'s
`candles.sort(key=lambda x: x.get('datetime', 0))`. -/
def candleLE (a b : Candle) : Prop := a.datetime ≤ b.datetime

instance : DecidableRel candleLE := fun a b =>
  inferInstanceAs (Decidable (a.datetime ≤ b.datetime))

instance : IsTotal Candle candleLE := ⟨fun a b => Nat.le_total a.datetime b.datetime⟩

instance : IsTrans Candle candleLE := ⟨fun _ _ _ => Nat.le_trans⟩

/-- `MarketDataFetcher.get_30min_candles`, reduced to its pure tail: the HTTP
layer delivers the raw candle list `raw` (empty on any transport error), and
the function returns it sorted ascending by `datetime`. -/
def get_30min_candles (raw : List Candle) : List Candle :=
  raw.insertionSort candleLE

/-- `MarketDataFetcher.get_spx_close_price` (`market_data.py` lines 96–122):
query the 15:30–16:00 window; when it returns no candles, query the full
default session window (09:30–16:00); return the `close` of the last candle
of whichever query returned candles, `None` when both are empty.  `api` maps
a queried window `(start_hour, start_minute, end_hour, end_minute)` to the
raw candle list the transport delivers for it. -/
def get_spx_close_price (api : ℕ × ℕ × ℕ × ℕ → List Candle) : Option ℚ :=
  let candles := get_30min_candles (api (15, 30, 16, 0))
  if candles = [] then
    let all_candles := get_30min_candles (api (9, 30, 16, 0))
    if all_candles = [] then none
    else (all_candles.getLast?).map Candle.close
  else (candles.getLast?).map Candle.close

/-! ## Order submission — `src/orders/spread_order_placer.py` (with
`QuotesManager._format_option_symbol` from `src/quotes/quotes_manager.py`) -/

/-- Python `int()` on a price: truncation toward zero
(`int(strike)` in `_format_option_symbol`). -/
def int_trunc (x : ℚ) : ℤ := x.num.tdiv x.den

/-- Left-pads a digit string with zeros to width `w`. -/
def padZeros (s : String) (w : ℕ) : String :=
  if s.length ≥ w then s else String.mk (List.replicate (w - s.length) '0') ++ s

/-- Python `f"{n:08d}"`: sign-aware zero padding to width 8. -/
def format08d (n : ℤ) : String :=
  if 0 ≤ n then padZeros (toString n.toNat) 8
  else "-" ++ padZeros (toString (-n).toNat) 7

/-- `QuotesManager._format_option_symbol`: strike is multiplied by 1000 and
zero-padded to 8 digits; `$XSP` becomes base `XSP` with three spaces, every
other root keeps its name with two spaces; then
`base ++ spaces ++ expiration_date ++ option_type.upper() ++ strike_str`. -/
def format_option_symbol (symbol expiration_date option_type : String)
    (strike : ℤ) : String :=
  let strike_formatted := strike * 1000
  let strike_str := format08d strike_formatted
  let bs := if symbol = "$XSP" then ("XSP", "   ") else (symbol, "  ")
  bs.1 ++ bs.2 ++ expiration_date ++ option_type.toUpper ++ strike_str

/-- One leg of the order JSON built by `place_10wide_credit_spread`. -/
structure OrderLeg where
  instruction : String
  quantity : ℤ
  symbol : String
  assetType : String
  deriving Repr, DecidableEq

/-- The order JSON built by `place_10wide_credit_spread` (the `price` field is
serialised with two decimals on the wire; it is kept as the exact rational
here). -/
structure OrderPayload where
  orderType : String
  session : String
  price : ℚ
  duration : String
  orderStrategyType : String
  orderLegCollection : List OrderLeg
  deriving Repr, DecidableEq

/-- Builds the two-leg net-credit order dictionary exactly as
`spread_order_placer.py` lines 74–98: long leg `BUY_TO_OPEN` listed first,
short leg `SELL_TO_OPEN` second, both with quantity `quantity`. -/
def buildSpreadOrder (short_symbol long_symbol : String) (quantity : ℤ)
    (order_price : ℚ) : OrderPayload where
  orderType := "NET_CREDIT"
  session := "NORMAL"
  price := order_price
  duration := "DAY"
  orderStrategyType := "SINGLE"
  orderLegCollection :=
    [ { instruction := "BUY_TO_OPEN", quantity := quantity,
        symbol := long_symbol, assetType := "OPTION" },
      { instruction := "SELL_TO_OPEN", quantity := quantity,
        symbol := short_symbol, assetType := "OPTION" } ]

/-- An entry of `AccountManager.get_orders_executed_today`, with the keys
`place_10wide_credit_spread` reads; `Option` marks dictionary-key presence. -/
structure BrokerOrder where
  orderId : Option String
  status : Option String
  enteredTime : Option String
  deriving Repr, DecidableEq

/-- The parse of a JSON response body, with the keys the placer reads. -/
structure JsonBody where
  orderId : Option String
  status : Option String
  deriving Repr, DecidableEq

/-- An HTTP response as the placer observes it: status code, body text, the
`Location` header (`headers.get('Location', '')`), and the result of
`response.json()` on the body (`none` when the body is not parseable JSON). -/
structure HttpResponse where
  status_code : ℕ
  text : String
  location : String
  json : Option JsonBody
  deriving Repr, DecidableEq

instance instDecidableEqExcept {ε α : Type} [DecidableEq ε] [DecidableEq α] :
    DecidableEq (Except ε α) := fun x y =>
  match x, y with
  | .ok a, .ok b =>
    if h : a = b then isTrue (by rw [h]) else isFalse (fun c => h (by injection c))
  | .error a, .error b =>
    if h : a = b then isTrue (by rw [h]) else isFalse (fun c => h (by injection c))
  | .ok _, .error _ => isFalse (fun c => by injection c)
  | .error _, .ok _ => isFalse (fun c => by injection c)

/-- The broker-side behaviour a submission attempt encounters: the outcome of
the pre-gate `get_account_hash` lookup (an outbound broker GET to
`/accounts/accountNumbers` performed before the safety gate; `Except.error`
models it raising, e.g. `ValueError("No accounts found")` or a transport
error), the response to the first POST, the response to the re-POST performed
only after a 401, and the recent-orders lookup outcome (`Except.error` models
the `get_orders_executed_today` call raising). -/
structure LiveBrokerEnv where
  account_hash : Except String String
  first_response : HttpResponse
  retry_response : HttpResponse
  recent_orders : Except String (List BrokerOrder)
  deriving Repr, DecidableEq

/-- The `order_details` value of the returned dictionary, one constructor per
return site of `place_10wide_credit_spread`. -/
inductive OrderDetailsValue where
  | payload (p : OrderPayload)
  | brokerOrder (o : BrokerOrder)
  | locationPending (orderId : String) (message : String)
  | emptyResponse (message : String) (orderId : String)
  | jsonResponse (j : JsonBody)
  deriving Repr, DecidableEq

/-- The dictionary returned by `place_10wide_credit_spread`.  Live-path
dictionaries carry no `dry_run` key; callers read it with
`.get('dry_run', False)`, embedded as `dry_run := false` there. -/
structure OrderResponse where
  orderId : String
  status : String
  order_details : OrderDetailsValue
  dry_run : Bool
  deriving Repr, DecidableEq

/-- The exceptions `place_10wide_credit_spread` propagates: the pre-gate
account-hash lookup raising, `response.raise_for_status()`, and the
JSON-parse `ValueError`. -/
inductive PlacerError where
  | accountError (e : String)
  | httpError (status : ℕ)
  | jsonError
  deriving Repr, DecidableEq

/-- Result of a submission attempt together with the number of
order-submission POST requests sent to the broker and the number of
account-hash lookup GETs sent to the broker (the `get_account_hash` call of
line 71 precedes the safety gate, so one such outbound call is made on every
entry, dry-run included). -/
structure PlaceOutcome where
  result : Except PlacerError OrderResponse
  posts : ℕ
  account_lookups : ℕ
  deriving Repr, DecidableEq

/-- The extraction `re.search(r'/orders/(\d+)$', location_header)` of
`spread_order_placer.py` line 174: the match exists exactly when the header
ends in a nonempty digit run immediately preceded by `/orders/`, and the
captured group is that digit run (the maximal trailing digit run, since `/`
is not a digit). -/
def extractOrderIdFromLocation (location : String) : Option String :=
  let cs := location.toList
  let ds := (cs.reverse.takeWhile Char.isDigit).reverse
  let stem := cs.take (cs.length - ds.length)
  if ds ≠ [] ∧ (String.mk stem).endsWith "/orders/" = true then
    some (String.mk ds)
  else none

/-- `SpreadOrderPlacer.place_10wide_credit_spread` (`spread_order_placer.py`
lines 28–293).  After formatting the leg symbols, line 71 calls
`get_account_hash` — an outbound broker GET made BEFORE the safety gate; if
it raises, the exception propagates and nothing else runs (hence
`account_lookups = 1` in every outcome and an `accountError` result on
lookup failure).  Then the order JSON is built and the hard safety gate is
checked: when `Config.DRY_RUN or not Config.ENABLE_LIVE_TRADING`, the
synthetic dry-run dictionary is returned and no POST is sent (`posts = 0`).
Otherwise the order is POSTed; a 401 first response triggers one token
refresh and re-POST; an error status raises; a 201/204/empty-body success
resolves the order id via the `Location` header and the recent-orders
lookup; a success with a JSON body returns its `orderId`/`status`. -/
def place_10wide_credit_spread (cfg : Config) (date : String) (k_short k_long : ℚ)
    (option_type : String) (quantity : ℤ) (order_price : ℚ)
    (env : LiveBrokerEnv) : PlaceOutcome :=
  let option_type_char : String := if option_type = "PUT" then "P" else "C"
  let short_symbol := format_option_symbol "SPXW" date option_type_char (int_trunc k_short)
  let long_symbol := format_option_symbol "SPXW" date option_type_char (int_trunc k_long)
  match env.account_hash with
  | .error e => { result := .error (.accountError e), posts := 0, account_lookups := 1 }
  | .ok _account_hash =>
  let order := buildSpreadOrder short_symbol long_symbol quantity order_price
  if cfg.DRY_RUN = true ∨ cfg.ENABLE_LIVE_TRADING = false then
    let mock : OrderResponse :=
      { orderId := "DRY_RUN_MOCK_ORDER_ID", status := "DRY_RUN",
        order_details := .payload order, dry_run := true }
    { result := .ok mock, posts := 0, account_lookups := 1 }
  else
    let r1 := env.first_response
    let rp := if r1.status_code = 401 then (env.retry_response, 2) else (r1, 1)
    let resp := rp.1
    let posts := rp.2
    if 400 ≤ resp.status_code then
      { result := .error (.httpError resp.status_code), posts := posts,
        account_lookups := 1 }
    else if resp.status_code = 201 ∨ resp.status_code = 204 ∨
        resp.text = "" ∨ resp.text.trim = "" then
      let oid? := extractOrderIdFromLocation resp.location
      let fallback : OrderResponse :=
        { orderId := "PENDING", status := "ACCEPTED",
          order_details :=
            .emptyResponse "Order accepted, empty response from API" "PENDING",
          dry_run := false }
      match env.recent_orders with
      | .ok recent_orders =>
        match recent_orders with
        | [] =>
          match oid? with
          | some oid =>
            let r : OrderResponse :=
              { orderId := oid, status := "ACCEPTED",
                order_details := .locationPending oid "Order placed, details pending",
                dry_run := false }
            { result := .ok r, posts := posts, account_lookups := 1 }
          | none => { result := .ok fallback, posts := posts, account_lookups := 1 }
        | o :: _ =>
          let byId : Option BrokerOrder :=
            match oid? with
            | some oid => recent_orders.find? (fun od => od.orderId.getD "" = oid)
            | none => none
          let od := byId.getD o
          let r : OrderResponse :=
            { orderId := od.orderId.getD (oid?.getD "PENDING"),
              status := od.status.getD "ACCEPTED",
              order_details := .brokerOrder od, dry_run := false }
          { result := .ok r, posts := posts, account_lookups := 1 }
      | .error _ =>
        match oid? with
        | some oid =>
          let r : OrderResponse :=
            { orderId := oid, status := "ACCEPTED",
              order_details := .locationPending oid "Order placed, verification failed",
              dry_run := false }
          { result := .ok r, posts := posts, account_lookups := 1 }
        | none => { result := .ok fallback, posts := posts, account_lookups := 1 }
    else
      match resp.json with
      | none => { result := .error .jsonError, posts := posts, account_lookups := 1 }
      | some j =>
        let r : OrderResponse :=
          { orderId := j.orderId.getD "", status := j.status.getD "",
            order_details := .jsonResponse j, dry_run := false }
        { result := .ok r, posts := posts, account_lookups := 1 }

/-- A configuration with both safety gates open: `DRY_RUN = false` and
`ENABLE_LIVE_TRADING = true`, other values at their defaults. -/
def liveConfig : Config :=
  { defaultConfig with DRY_RUN := false, ENABLE_LIVE_TRADING := true }

/-- A broker environment whose account-hash lookup succeeds and whose POST
succeeds with 201, an empty body, no usable `Location` header, and an empty
recent-orders lookup — the ambiguous submission outcome. -/
def ambiguousBrokerEnv : LiveBrokerEnv where
  account_hash := .ok "ABC123"
  first_response := { status_code := 201, text := "", location := "", json := none }
  retry_response := { status_code := 201, text := "", location := "", json := none }
  recent_orders := .ok []

/-- A broker environment whose pre-gate account-hash lookup raises — the
`ValueError("No accounts found")` of `AccountManager.get_account_hash` when
the brokerage returns no accounts. -/
def failingAccountEnv : LiveBrokerEnv where
  account_hash := .error "No accounts found"
  first_response := { status_code := 201, text := "", location := "", json := none }
  retry_response := { status_code := 201, text := "", location := "", json := none }
  recent_orders := .ok []

/-- Modelled from the spec: `step_b_bearish_orl_breakout` with the required
exact-`bar_start` candle selection (via
`scan_breakout_windows_by_bar_start`) in place of `candles[0]`. -/
def step_b_bearish_orl_breakout_by_bar_start {α : Type} (or_data : ORData)
    (fetch : ℕ × ℕ × ℕ × ℕ → List Candle) (monitor : StepBTrigger → Option α) :
    Option α :=
  if or_data.ORC ≥ or_data.ORO then none
  else scan_breakout_windows_by_bar_start or_data.ORL fetch monitor candle_windows

/-- The 09:30–10:00 opening-range bar of a bearish session:
`ORO 6936, ORH 6946, ORL 6932, ORC 6935`. -/
def sessionORBar : Candle where
  datetime := hm 9 30
  open_price := 6936
  high := 6946
  low := 6932
  close := 6935

/-- The 10:00–10:30 bar of the same session, closing at 6930, below the
opening-range low of 6932 — a genuine Step-B breakout bar. -/
def sessionBreakoutBar : Candle where
  datetime := hm 10 0
  open_price := 6934
  high := 6935
  low := 6929
  close := 6930

/-- The opening range of that session (`ORC 6935 < ORO 6936`, bearish). -/
def sessionOR : ORData where
  ORO := 6936
  ORH := 6946
  ORL := 6932
  ORC := 6935

/-- What the adapter returns per Step-B window for that session: the
10:00–10:30 query returns the session bars from the open onward — the
opening-range bar FIRST, then the 10:00 bar — and the later window queries
return only the opening-range bar. -/
def sessionFetch : ℕ × ℕ × ℕ × ℕ → List Candle := fun w =>
  if w = (10, 0, 10, 30) then [sessionORBar, sessionBreakoutBar]
  else [sessionORBar]

/-- The synthetic dry-run response for a given order payload, as returned by
the gated branch of `place_10wide_credit_spread`. -/
def dryRunResponse (order : OrderPayload) : OrderResponse where
  orderId := "DRY_RUN_MOCK_ORDER_ID"
  status := "DRY_RUN"
  order_details := .payload order
  dry_run := true

/-- The fallback response of `place_10wide_credit_spread` when a success
status with empty body yields no order id from any source. -/
def pendingAcceptedResponse : OrderResponse where
  orderId := "PENDING"
  status := "ACCEPTED"
  order_details := .emptyResponse "Order accepted, empty response from API" "PENDING"
  dry_run := false

/-- A spread-credit reading of exactly the minimum net credit:
`C_gross = 4.70`, `C_net = 4.60`. -/
def thresholdReading : CreditData where
  C_gross := 47/10
  C_net := 23/5
  short_mid := 41/5
  long_mid := 7/2
  short_bid := 8
  short_ask := 42/5
  long_bid := 17/5
  long_ask := 18/5

/-- A 10:00-bar candle closing exactly at an opening-range low of 6932. -/
def orlTouchCandle : Candle where
  datetime := 600
  open_price := 6933
  high := 6934
  low := 6931
  close := 6932

end SpxBot

namespace SpxBot

/-- **C6.** `round_to_5(x) = 5 × ⌊(x + 2.5)/5⌋`; the PUT-spread strikes are
`(round_to_5(SPX_entry), K_short − 10)` and the CALL-spread strikes are
`(round_to_5(SPX_entry), K_short + 10)`; hence `|K_long − K_short| = 10` and
all strikes are multiples of 5. -/
theorem c6_strike_math (x spx_entry : ℚ) :
    round_to_5 x = 5 * (⌊(x + 5/2) / 5⌋ : ℤ)
    ∧ calculate_put_spread_strikes spx_entry =
        (round_to_5 spx_entry, round_to_5 spx_entry - 10)
    ∧ calculate_call_spread_strikes spx_entry =
        (round_to_5 spx_entry, round_to_5 spx_entry + 10)
    ∧ |(calculate_put_spread_strikes spx_entry).2 -
        (calculate_put_spread_strikes spx_entry).1| = 10
    ∧ |(calculate_call_spread_strikes spx_entry).2 -
        (calculate_call_spread_strikes spx_entry).1| = 10
    ∧ (∃ m : ℤ, (calculate_put_spread_strikes spx_entry).1 = 5 * m)
    ∧ (∃ m : ℤ, (calculate_put_spread_strikes spx_entry).2 = 5 * m)
    ∧ (∃ m : ℤ, (calculate_call_spread_strikes spx_entry).1 = 5 * m)
    ∧ (∃ m : ℤ, (calculate_call_spread_strikes spx_entry).2 = 5 * m) := by
  refine ⟨rfl, rfl, rfl, ?_, ?_, ?_, ?_, ?_, ?_⟩
  · simp only [calculate_put_spread_strikes, StrikeCalculator.SPREAD_WIDTH]
    norm_num
  · simp only [calculate_call_spread_strikes, StrikeCalculator.SPREAD_WIDTH]
    norm_num
  · exact ⟨⌊(spx_entry + 5/2) / 5⌋, rfl⟩
  · refine ⟨⌊(spx_entry + 5/2) / 5⌋ - 2, ?_⟩
    simp only [calculate_put_spread_strikes, round_to_5, StrikeCalculator.SPREAD_WIDTH]
    push_cast
    ring
  · exact ⟨⌊(spx_entry + 5/2) / 5⌋, rfl⟩
  · refine ⟨⌊(spx_entry + 5/2) / 5⌋ + 2, ?_⟩
    simp only [calculate_call_spread_strikes, round_to_5, StrikeCalculator.SPREAD_WIDTH]
    push_cast
    ring

/-- **C7.** PUT settlement is `clamp(K_short − SPX_close, 0, 10)`, CALL
settlement is `clamp(SPX_close − K_short, 0, 10)`, with
`pnl_per_spread = (C_net_fill − value) × 100` and
`total_pnl = pnl_per_spread × qty`; at `K_short = 5435`,
`SPX_close = 5430.2`, `C_net_fill = 4.60`, `qty = 5` this gives
`value = 4.80`, `pnl_per_spread = −20`, `total_pnl = −100`. -/
theorem c7_settlement (k_short spx_close c_net_fill : ℚ) (qty : ℤ) :
    calculate_put_spread_pl k_short spx_close c_net_fill qty =
      { settlement_value := clamp (k_short - spx_close) 0 10,
        pnl_per_spread := (c_net_fill - clamp (k_short - spx_close) 0 10) * 100,
        total_pnl := (c_net_fill - clamp (k_short - spx_close) 0 10) * 100 * qty }
    ∧ calculate_call_spread_pl k_short spx_close c_net_fill qty =
      { settlement_value := clamp (spx_close - k_short) 0 10,
        pnl_per_spread := (c_net_fill - clamp (spx_close - k_short) 0 10) * 100,
        total_pnl := (c_net_fill - clamp (spx_close - k_short) 0 10) * 100 * qty }
    ∧ calculate_put_spread_pl 5435 (54302/10) (23/5) 5 =
      { settlement_value := 24/5, pnl_per_spread := -20, total_pnl := -100 } := by
  refine ⟨rfl, rfl, ?_⟩
  simp only [calculate_put_spread_pl, clamp, PLCalculator.SPREAD_WIDTH]
  norm_num

/-- **C5.** Position sizing: `R_day = DAILY_RISK_PCT × equity`,
`maxLossPerSpread = (10 − C_net) × 100`,
`qty = clamp(⌊R_day / maxLossPerSpread⌋, MIN_CONTRACTS, MAX_CONTRACTS)` when
the per-spread loss is positive, `qty = MIN_CONTRACTS` when it is
nonpositive, and `qty ≥ 1` always; at the default configuration,
equity `100000` and `C_net = 4.60` give `R_day = 3000`,
`maxLossPerSpread = 540`, `qty = 5`. -/
theorem c5_position_sizing (cfg : Config) (equity c_net : ℚ)
    (hmin : 1 ≤ cfg.MIN_CONTRACTS) (hminmax : cfg.MIN_CONTRACTS ≤ cfg.MAX_CONTRACTS)
    (hw : cfg.SPREAD_WIDTH = 10) :
    (calculate_position_size cfg equity c_net none).R_day = cfg.DAILY_RISK_PCT * equity
    ∧ (calculate_position_size cfg equity c_net none).maxLossPerSpread =
        (10 - c_net) * 100
    ∧ (0 < (10 - c_net) * 100 →
        (calculate_position_size cfg equity c_net none).qty =
          min (max ⌊cfg.DAILY_RISK_PCT * equity / ((10 - c_net) * 100)⌋
                 cfg.MIN_CONTRACTS)
            cfg.MAX_CONTRACTS)
    ∧ ((10 - c_net) * 100 ≤ 0 →
        (calculate_position_size cfg equity c_net none).qty = cfg.MIN_CONTRACTS)
    ∧ 1 ≤ (calculate_position_size cfg equity c_net none).qty
    ∧ calculate_position_size defaultConfig 100000 (23/5) none =
        { qty := 5, R_day := 3000, maxLossPerSpread := 540,
          account_equity := 100000 } := by
  have hml : (calculate_position_size cfg equity c_net none).maxLossPerSpread =
      (cfg.SPREAD_WIDTH - c_net) * 100 := rfl
  have hqty : (calculate_position_size cfg equity c_net none).qty =
      min (max cfg.MIN_CONTRACTS
            (if (cfg.SPREAD_WIDTH - c_net) * 100 > 0 then
              ⌊cfg.DAILY_RISK_PCT * equity / ((cfg.SPREAD_WIDTH - c_net) * 100)⌋
            else 1))
        cfg.MAX_CONTRACTS := rfl
  refine ⟨rfl, ?_, ?_, ?_, ?_, ?_⟩
  · rw [hml, hw]
  · intro hpos
    rw [hqty, hw, if_pos hpos, max_comm]
  · intro hnonpos
    rw [hqty, hw, if_neg (not_lt.mpr hnonpos), max_eq_left hmin,
      min_eq_left hminmax]
  · rw [hqty]
    exact le_min (le_trans hmin (le_max_left _ _)) (le_trans hmin hminmax)
  · simp only [calculate_position_size, defaultConfig, Option.getD]
    norm_num

/-- Witness for `c5_position_sizing` at the default configuration, equity
100000 and `C_net = 4.60`. -/
theorem c5_position_sizing_witness :
    (1 : ℤ) ≤ defaultConfig.MIN_CONTRACTS
    ∧ calculate_position_size defaultConfig 100000 (23/5) none =
        { qty := 5, R_day := 3000, maxLossPerSpread := 540,
          account_equity := 100000 } :=
  ⟨by norm_num [defaultConfig],
   (c5_position_sizing defaultConfig 100000 (23/5) (by norm_num [defaultConfig])
      (by norm_num [defaultConfig]) (by norm_num [defaultConfig])).2.2.2.2.2⟩

/-- **C4.** `meets_credit_threshold` holds exactly when `C_net ≥ 4.60` at the
default configuration (so `C_net = 4.60` exactly meets it, the comparison
being `≥`), an unavailable reading never meets it, and the monitoring loop
submits on the first reading that meets the threshold. -/
theorem c4_credit_threshold :
    (∀ cd : CreditData,
      meets_credit_threshold defaultConfig (some cd) = true ↔ 23/5 ≤ cd.C_net)
    ∧ meets_credit_threshold defaultConfig none = false
    ∧ (∀ (α : Type) (place : CreditData → α)
        (pre rest : List (Option CreditData)) (cd : CreditData),
        (∀ r ∈ pre, meets_credit_threshold defaultConfig r = false) →
        23/5 ≤ cd.C_net →
        monitor_quotes_loop defaultConfig place (pre ++ some cd :: rest) =
          some (place cd)) := by
  have hmeets : ∀ cd : CreditData,
      meets_credit_threshold defaultConfig (some cd) = true ↔ 23/5 ≤ cd.C_net := by
    intro cd
    simp [meets_credit_threshold, defaultConfig, ge_iff_le]
  refine ⟨hmeets, rfl, ?_⟩
  intro α place pre rest cd hpre hcd
  induction pre with
  | nil =>
    have ht : meets_credit_threshold defaultConfig (some cd) = true :=
      (hmeets cd).mpr hcd
    simp [monitor_quotes_loop, ht]
  | cons r pre ih =>
    have hr : meets_credit_threshold defaultConfig r = false :=
      hpre r (List.mem_cons_self r pre)
    have hrest : ∀ s ∈ pre, meets_credit_threshold defaultConfig s = false :=
      fun s hs => hpre s (List.mem_cons_of_mem r hs)
    cases r with
    | none => simpa [monitor_quotes_loop] using ih hrest
    | some cd' =>
      have : monitor_quotes_loop defaultConfig place
          ((some cd' :: pre) ++ some cd :: rest) =
          monitor_quotes_loop defaultConfig place (pre ++ some cd :: rest) := by
        simp [monitor_quotes_loop, hr]
      rw [this]
      exact ih hrest

/-- Witness for `c4_credit_threshold`: a reading of exactly `C_net = 4.60`,
preceded by an unavailable tick, triggers submission on that reading. -/
theorem c4_credit_threshold_witness :
    (∀ r ∈ ([none] : List (Option CreditData)),
        meets_credit_threshold defaultConfig r = false)
    ∧ monitor_quotes_loop defaultConfig (fun cd => cd.C_net)
        ([none] ++ some thresholdReading :: []) = some (23/5) :=
  ⟨by intro r hr; simp at hr; simp [hr, meets_credit_threshold],
   c4_credit_threshold.2.2 ℚ (fun cd => cd.C_net) [none] [] thresholdReading
     (by intro r hr; simp at hr; simp [hr, meets_credit_threshold]) le_rfl⟩

/-- **C8.** In the Step-B scan, a window whose examined `bar_close` is
strictly below `ORL` declares a breakout (entering the monitor with that
close frozen as `SPX_entry`); a window whose `bar_close` is not below `ORL` —
in particular exactly equal to it — declares none and the scan proceeds to
the next window. -/
theorem c8_breakout_strict (α : Type) (orl : ℚ)
    (fetch : ℕ × ℕ × ℕ × ℕ → List Candle) (monitor : StepBTrigger → Option α)
    (w : ℕ × ℕ × ℕ × ℕ) (rest : List (ℕ × ℕ × ℕ × ℕ)) (candle : Candle)
    (hhead : (fetch w).head? = some candle) :
    (candle.close < orl →
      scan_breakout_windows orl fetch monitor (w :: rest) =
        monitor (mkStepBTrigger candle.close))
    ∧ (candle.close = orl →
      scan_breakout_windows orl fetch monitor (w :: rest) =
        scan_breakout_windows orl fetch monitor rest)
    ∧ (¬ candle.close < orl →
      scan_breakout_windows orl fetch monitor (w :: rest) =
        scan_breakout_windows orl fetch monitor rest) := by
  refine ⟨?_, ?_, ?_⟩
  · intro hlt
    simp [scan_breakout_windows, hhead, hlt]
  · intro heq
    simp [scan_breakout_windows, hhead, heq, lt_irrefl]
  · intro hge
    simp [scan_breakout_windows, hhead, hge]

/-- Witness for `c8_breakout_strict`: a bar closing exactly at `ORL = 6932`
does not trigger, and the scan moves on (here to an empty tail, hence no
trade). -/
theorem c8_breakout_strict_witness :
    (([orlTouchCandle] : List Candle).head? = some orlTouchCandle)
    ∧ scan_breakout_windows (α := StepBTrigger) 6932
        (fun _ => [orlTouchCandle]) some [(10, 0, 10, 30)] = none :=
  ⟨rfl, by
    have h := (c8_breakout_strict StepBTrigger 6932 (fun _ => [orlTouchCandle])
      some (10, 0, 10, 30) [] orlTouchCandle rfl).2.1 rfl
    simpa [scan_breakout_windows] using h⟩

/-- The adapter's sort leaves a list ordered by `datetime`. -/
theorem get_30min_candles_sorted (raw : List Candle) :
    (get_30min_candles raw).Sorted candleLE :=
  List.sorted_insertionSort candleLE raw

/-- The adapter's sort returns the empty list exactly on empty input. -/
theorem get_30min_candles_eq_nil (raw : List Candle) :
    get_30min_candles raw = [] ↔ raw = [] := by
  constructor
  · intro h
    have hp : (get_30min_candles raw).Perm raw := List.perm_insertionSort candleLE raw
    rw [h] at hp
    exact (hp.symm.eq_nil)
  · intro h
    rw [h]
    rfl

/-- The adapter's sort preserves membership. -/
theorem mem_get_30min_candles (raw : List Candle) (x : Candle) :
    x ∈ get_30min_candles raw ↔ x ∈ raw :=
  List.mem_insertionSort candleLE

/-- In a `datetime`-sorted candle list, the last element has the maximal
`datetime`. -/
theorem sorted_getLast_max :
    ∀ (l : List Candle), l.Sorted candleLE → ∀ c, l.getLast? = some c →
      ∀ x ∈ l, x.datetime ≤ c.datetime := by
  intro l
  induction l with
  | nil =>
    intro _ c hc
    simp at hc
  | cons a t ih =>
    intro hs c hc x hx
    cases t with
    | nil =>
      simp only [List.getLast?_singleton, Option.some.injEq] at hc
      rcases List.mem_singleton.mp hx with rfl
      rw [hc]
    | cons b t' =>
      rw [List.getLast?_cons_cons] at hc
      have hs' : (b :: t').Sorted candleLE := hs.of_cons
      have ha : ∀ y ∈ b :: t', candleLE a y := List.rel_of_sorted_cons hs
      rcases List.mem_cons.mp hx with rfl | hx'
      · obtain ⟨hne, hceq⟩ := List.mem_getLast?_eq_getLast (l := b :: t') hc
        have hcmem : c ∈ b :: t' := hceq ▸ List.getLast_mem hne
        exact ha c hcmem
      · exact ih hs' c hc x hx'

/-- **C10.** `get_spx_close_price` returns `None` exactly when both the
15:30–16:00 query and the full-session 09:30–16:00 fallback query return no
candles; when the 15:30–16:00 query returns candles it returns the `close` of
the last (latest `bar_start`) of them, and when only the fallback succeeds it
returns the `close` of the last (latest `bar_start`) candle of the full
session. -/
theorem c10_spx_close_price (api : ℕ × ℕ × ℕ × ℕ → List Candle) :
    (get_spx_close_price api = none ↔
      (api (15, 30, 16, 0) = [] ∧ api (9, 30, 16, 0) = []))
    ∧ (∀ c, (get_30min_candles (api (15, 30, 16, 0))).getLast? = some c →
        get_spx_close_price api = some c.close ∧
        ∀ x ∈ api (15, 30, 16, 0), x.datetime ≤ c.datetime)
    ∧ (∀ c, api (15, 30, 16, 0) = [] →
        (get_30min_candles (api (9, 30, 16, 0))).getLast? = some c →
        get_spx_close_price api = some c.close ∧
        ∀ x ∈ api (9, 30, 16, 0), x.datetime ≤ c.datetime) := by
  refine ⟨?_, ?_, ?_⟩
  · constructor
    · intro h
      by_cases h1 : get_30min_candles (api (15, 30, 16, 0)) = []
      · by_cases h2 : get_30min_candles (api (9, 30, 16, 0)) = []
        · exact ⟨(get_30min_candles_eq_nil _).mp h1, (get_30min_candles_eq_nil _).mp h2⟩
        · exfalso
          have hsome : ∃ c, (get_30min_candles (api (9, 30, 16, 0))).getLast? = some c := by
            cases hc : (get_30min_candles (api (9, 30, 16, 0))).getLast? with
            | none => exact absurd (List.getLast?_eq_none_iff.mp hc) h2
            | some c => exact ⟨c, rfl⟩
          obtain ⟨c, hc⟩ := hsome
          simp only [get_spx_close_price, if_pos h1, if_neg h2, hc] at h
          simp at h
      · exfalso
        have hsome : ∃ c, (get_30min_candles (api (15, 30, 16, 0))).getLast? = some c := by
          cases hc : (get_30min_candles (api (15, 30, 16, 0))).getLast? with
          | none => exact absurd (List.getLast?_eq_none_iff.mp hc) h1
          | some c => exact ⟨c, rfl⟩
        obtain ⟨c, hc⟩ := hsome
        simp only [get_spx_close_price, if_neg h1, hc] at h
        simp at h
    · rintro ⟨ha, hb⟩
      have h1 : get_30min_candles (api (15, 30, 16, 0)) = [] :=
        (get_30min_candles_eq_nil _).mpr ha
      have h2 : get_30min_candles (api (9, 30, 16, 0)) = [] :=
        (get_30min_candles_eq_nil _).mpr hb
      simp only [get_spx_close_price, if_pos h1, if_pos h2]
  · intro c hc
    have hne : get_30min_candles (api (15, 30, 16, 0)) ≠ [] := by
      intro h
      rw [h] at hc
      simp at hc
    constructor
    · unfold get_spx_close_price
      simp [hne, hc]
    · intro x hx
      exact sorted_getLast_max _ (get_30min_candles_sorted _) c hc x
        ((mem_get_30min_candles _ x).mpr hx)
  · intro c hempty hc
    have h1 : get_30min_candles (api (15, 30, 16, 0)) = [] :=
      (get_30min_candles_eq_nil _).mpr hempty
    have hne : get_30min_candles (api (9, 30, 16, 0)) ≠ [] := by
      intro h
      rw [h] at hc
      simp at hc
    constructor
    · unfold get_spx_close_price
      simp [h1, hne, hc]
    · intro x hx
      exact sorted_getLast_max _ (get_30min_candles_sorted _) c hc x
        ((mem_get_30min_candles _ x).mpr hx)

/-- Witness for `c10_spx_close_price`: with an empty 15:30–16:00 result and a
two-candle full session, the fallback returns the later candle's close. -/
theorem c10_spx_close_price_witness :
    ((fun w => if w = ((15 : ℕ), (30 : ℕ), (16 : ℕ), (0 : ℕ)) then ([] : List Candle)
        else [orlTouchCandle, { datetime := 930, open_price := 6930, high := 6931,
                                low := 6929, close := 6930 }])
        ((15 : ℕ), (30 : ℕ), (16 : ℕ), (0 : ℕ)) = [])
    ∧ get_spx_close_price
        (fun w => if w = ((15 : ℕ), (30 : ℕ), (16 : ℕ), (0 : ℕ)) then ([] : List Candle)
          else [orlTouchCandle, { datetime := 930, open_price := 6930, high := 6931,
                                  low := 6929, close := 6930 }]) = some 6930 := by
  refine ⟨rfl, ?_⟩
  have h := (c10_spx_close_price
    (fun w => if w = ((15 : ℕ), (30 : ℕ), (16 : ℕ), (0 : ℕ)) then ([] : List Candle)
      else [orlTouchCandle, { datetime := 930, open_price := 6930, high := 6931,
                              low := 6929, close := 6930 }])).2.2
    { datetime := 930, open_price := 6930, high := 6931, low := 6929, close := 6930 }
    rfl (by rfl)
  exact h.1

/-- **C3.** In the day's dispatch, Step B is invoked only when `ORC < ORO`;
when `ORC > ORO` and the Step-A monitor places no order, the day ends with no
trade and Step B is never evaluated; and when `ORC = ORO` the day ends with
no trade and Step B is never evaluated. -/
theorem c3_step_a_precludes_step_b (α : Type) (or_data : ORData)
    (monitorA : ℚ × ℚ × ℚ → Option α)
    (fetch : ℕ × ℕ × ℕ × ℕ → List Candle) (monitor : StepBTrigger → Option α) :
    ((main_dispatch or_data monitorA fetch monitor).2 = true →
      or_data.ORC < or_data.ORO)
    ∧ (or_data.ORO < or_data.ORC →
      monitorA (or_data.ORC, (calculate_put_spread_strikes or_data.ORC).1,
        (calculate_put_spread_strikes or_data.ORC).2) = none →
      main_dispatch or_data monitorA fetch monitor = (none, false))
    ∧ (or_data.ORC = or_data.ORO →
      main_dispatch or_data monitorA fetch monitor = (none, false)) := by
  refine ⟨?_, ?_, ?_⟩
  · intro hflag
    by_cases hlt : or_data.ORC < or_data.ORO
    · exact hlt
    · exfalso
      unfold main_dispatch at hflag
      cases hsa : step_a_bullish_or or_data monitorA with
      | some r => rw [hsa] at hflag; simp at hflag
      | none => rw [hsa] at hflag; simp [hlt] at hflag
  · intro hbull hmon
    have hnle : ¬ or_data.ORC ≤ or_data.ORO := not_le.mpr hbull
    have hnlt : ¬ or_data.ORC < or_data.ORO := not_lt.mpr (le_of_lt hbull)
    have hsa : step_a_bullish_or or_data monitorA = none := by
      simp only [step_a_bullish_or, if_neg hnle]
      exact hmon
    unfold main_dispatch
    rw [hsa]
    simp [hnlt]
  · intro heq
    have hle : or_data.ORC ≤ or_data.ORO := le_of_eq heq
    have hnlt : ¬ or_data.ORC < or_data.ORO := not_lt.mpr (ge_of_eq heq)
    have hsa : step_a_bullish_or or_data monitorA = none := by
      simp [step_a_bullish_or, hle]
    unfold main_dispatch
    rw [hsa]
    simp [hnlt]

/-- Witness for `c3_step_a_precludes_step_b`: a neutral day `ORC = ORO` and a
bullish day whose monitor never fills both end `(none, false)` — no trade,
Step B not evaluated. -/
theorem c3_step_a_precludes_step_b_witness :
    ((5430 : ℚ) < 5434)
    ∧ main_dispatch (α := StepBTrigger)
        { ORO := 5430, ORH := 5437, ORL := 5428, ORC := 5434 }
        (fun _ => none) (fun _ => []) some = (none, false)
    ∧ main_dispatch (α := StepBTrigger)
        { ORO := 5430, ORH := 5437, ORL := 5428, ORC := 5430 }
        (fun _ => none) (fun _ => []) some = (none, false) :=
  ⟨by norm_num,
   (c3_step_a_precludes_step_b StepBTrigger
      { ORO := 5430, ORH := 5437, ORL := 5428, ORC := 5434 }
      (fun _ => none) (fun _ => []) some).2.1 (by norm_num) rfl,
   (c3_step_a_precludes_step_b StepBTrigger
      { ORO := 5430, ORH := 5437, ORL := 5428, ORC := 5430 }
      (fun _ => none) (fun _ => []) some).2.2 rfl⟩

/-- **C1 (counterexample).** Even in dry-run mode (the default
configuration), the submitter performs one outbound broker call — the
pre-gate account-hash lookup of `spread_order_placer.py` line 71 — and when
that lookup raises, the propagated exception is returned instead of the
synthetic record. -/
theorem c1_counterexample :
    0 < (place_10wide_credit_spread defaultConfig "251113" 5435 5425 "PUT" 5
        (47/10) ambiguousBrokerEnv).account_lookups
    ∧ (place_10wide_credit_spread defaultConfig "251113" 5435 5425 "PUT" 5
        (47/10) failingAccountEnv).result =
      Except.error (PlacerError.accountError "No accounts found")
    ∧ (Except.error (PlacerError.accountError "No accounts found") ≠
      Except.ok (dryRunResponse (buildSpreadOrder
        (format_option_symbol "SPXW" "251113" "P" (int_trunc 5435))
        (format_option_symbol "SPXW" "251113" "P" (int_trunc 5425))
        5 (47/10)))) :=
  ⟨Nat.zero_lt_one, rfl, fun h => Except.noConfusion h⟩

/-- **C1 (amended).** Every entry of `place_10wide_credit_spread` performs
exactly one outbound account-hash lookup, before the safety gate.  An
order-submission POST is sent if and only if `DRY_RUN = false`,
`ENABLE_LIVE_TRADING = true`, and that lookup succeeded.  Whenever
`DRY_RUN = true` or `ENABLE_LIVE_TRADING = false` and the lookup succeeded,
the submitter returns the synthetic record with order id
`"DRY_RUN_MOCK_ORDER_ID"` and status `"DRY_RUN"` — the same value for
identical inputs, independent of the returned hash and of the rest of the
broker environment — and sends no POST.  When the lookup raises, the
exception propagates, no synthetic record is returned, and no POST is
sent. -/
theorem c1_gate_after_account_lookup (cfg : Config) (date : String)
    (k_short k_long : ℚ) (option_type : String) (quantity : ℤ)
    (order_price : ℚ) (env : LiveBrokerEnv) :
    (place_10wide_credit_spread cfg date k_short k_long option_type quantity
        order_price env).account_lookups = 1
    ∧ (0 < (place_10wide_credit_spread cfg date k_short k_long option_type
        quantity order_price env).posts ↔
      (cfg.DRY_RUN = false ∧ cfg.ENABLE_LIVE_TRADING = true ∧
        ∃ h, env.account_hash = Except.ok h))
    ∧ ((cfg.DRY_RUN = true ∨ cfg.ENABLE_LIVE_TRADING = false) →
      ∀ h, env.account_hash = Except.ok h →
      place_10wide_credit_spread cfg date k_short k_long option_type
          quantity order_price env =
        { result := Except.ok (dryRunResponse (buildSpreadOrder
            (format_option_symbol "SPXW" date
              (if option_type = "PUT" then "P" else "C") (int_trunc k_short))
            (format_option_symbol "SPXW" date
              (if option_type = "PUT" then "P" else "C") (int_trunc k_long))
            quantity order_price)),
          posts := 0, account_lookups := 1 })
    ∧ (∀ e, env.account_hash = Except.error e →
      place_10wide_credit_spread cfg date k_short k_long option_type
          quantity order_price env =
        { result := Except.error (PlacerError.accountError e),
          posts := 0, account_lookups := 1 }) := by
  cases hacc : env.account_hash with
  | error e =>
    have hout : place_10wide_credit_spread cfg date k_short k_long option_type
        quantity order_price env =
        { result := Except.error (PlacerError.accountError e),
          posts := 0, account_lookups := 1 } := by
      simp only [place_10wide_credit_spread, hacc]
    refine ⟨by rw [hout], ?_, ?_, ?_⟩
    · rw [hout]
      refine iff_of_false (lt_irrefl 0) ?_
      rintro ⟨-, -, h, hok⟩
      exact Except.noConfusion hok
    · intro _ h hok
      exact Except.noConfusion hok
    · intro e' he'
      injection he' with he''
      rw [hout, he'']
  | ok h =>
    have hlk : (place_10wide_credit_spread cfg date k_short k_long option_type
        quantity order_price env).account_lookups = 1 := by
      simp only [place_10wide_credit_spread, hacc]
      by_cases hg : cfg.DRY_RUN = true ∨ cfg.ENABLE_LIVE_TRADING = false
      · rw [if_pos hg]
      · rw [if_neg hg]
        by_cases h401 : env.first_response.status_code = 401 <;>
          simp only [h401, if_true, if_false, ite_true, ite_false] <;>
          (repeat' split) <;> rfl
    refine ⟨hlk, ?_, ?_, ?_⟩
    · by_cases hg : cfg.DRY_RUN = true ∨ cfg.ENABLE_LIVE_TRADING = false
      · have h0 : (place_10wide_credit_spread cfg date k_short k_long option_type
            quantity order_price env).posts = 0 := by
          simp only [place_10wide_credit_spread, hacc]
          rw [if_pos hg]
        rw [h0]
        refine iff_of_false (lt_irrefl 0) ?_
        rintro ⟨hd, hl, -⟩
        rcases hg with hgd | hgl
        · rw [hd] at hgd
          exact Bool.noConfusion hgd
        · rw [hl] at hgl
          exact Bool.noConfusion hgl
      · have hposts : (place_10wide_credit_spread cfg date k_short k_long
            option_type quantity order_price env).posts =
            if env.first_response.status_code = 401 then 2 else 1 := by
          simp only [place_10wide_credit_spread, hacc]
          rw [if_neg hg]
          by_cases h401 : env.first_response.status_code = 401 <;>
            simp only [h401, if_true, if_false, ite_true, ite_false] <;>
            (repeat' split) <;> rfl
        have hgate : cfg.DRY_RUN = false ∧ cfg.ENABLE_LIVE_TRADING = true := by
          constructor
          · cases hd : cfg.DRY_RUN
            · rfl
            · exact absurd (Or.inl hd) hg
          · cases hl : cfg.ENABLE_LIVE_TRADING
            · exact absurd (Or.inr hl) hg
            · rfl
        refine iff_of_true ?_ ⟨hgate.1, hgate.2, h, rfl⟩
        rw [hposts]
        split <;> norm_num
    · intro hg h' _
      simp only [place_10wide_credit_spread, hacc]
      rw [if_pos hg]
      rfl
    · intro e he
      exact Except.noConfusion he

/-- Witness for `c1_gate_after_account_lookup`: at the default configuration
(dry run) with a succeeding account lookup, the submitter returns the
synthetic record, sends zero POSTs, and has made its one pre-gate account
lookup. -/
theorem c1_gate_after_account_lookup_witness :
    (defaultConfig.DRY_RUN = true ∨ defaultConfig.ENABLE_LIVE_TRADING = false)
    ∧ ambiguousBrokerEnv.account_hash = Except.ok "ABC123"
    ∧ place_10wide_credit_spread defaultConfig "251113" 5435 5425 "PUT" 5 (47/10)
        ambiguousBrokerEnv =
      { result := Except.ok (dryRunResponse (buildSpreadOrder
          (format_option_symbol "SPXW" "251113" "P" (int_trunc 5435))
          (format_option_symbol "SPXW" "251113" "P" (int_trunc 5425))
          5 (47/10))),
        posts := 0, account_lookups := 1 } :=
  ⟨Or.inl rfl, rfl,
   (c1_gate_after_account_lookup defaultConfig "251113" 5435 5425 "PUT" 5
      (47/10) ambiguousBrokerEnv).2.2.1 (Or.inl rfl) "ABC123" rfl⟩

/-- **C9 (counterexample).** On a live submission whose response has success
status 201, an empty body, no usable `Location` order id, and an empty
recent-orders lookup, the code records status `"ACCEPTED"`, not the
`"ACCEPTED_UNCONFIRMED"` the specification states. -/
theorem c9_counterexample :
    (place_10wide_credit_spread liveConfig "251113" 5435 5425 "PUT" 5 (47/10)
        ambiguousBrokerEnv).result = Except.ok pendingAcceptedResponse
    ∧ pendingAcceptedResponse.status = "ACCEPTED"
    ∧ ("ACCEPTED" : String) ≠ "ACCEPTED_UNCONFIRMED" := by
  exact ⟨rfl, rfl, by decide⟩

/-- **C9 (amended).** For every live submission whose broker response has a
success status (below 400, not the retried 401) with no parseable body
(201/204/empty text), no usable `Location`-header order id, and a
recent-orders lookup that yields no orders (empty result or lookup failure),
the submitter returns normally — continuing the day — with
`order_id = "PENDING"` and status `"ACCEPTED"`, having sent exactly one POST
(no automatic retry of the submission). -/
theorem c9_ambiguous_submission (cfg : Config) (date : String) (k_short k_long : ℚ)
    (option_type : String) (quantity : ℤ) (order_price : ℚ) (env : LiveBrokerEnv)
    (acct : String)
    (hacct : env.account_hash = Except.ok acct)
    (hdry : cfg.DRY_RUN = false) (hlive : cfg.ENABLE_LIVE_TRADING = true)
    (h401 : env.first_response.status_code ≠ 401)
    (hsucc : env.first_response.status_code < 400)
    (hempty : env.first_response.status_code = 201 ∨
      env.first_response.status_code = 204 ∨
      env.first_response.text = "" ∨ env.first_response.text.trim = "")
    (hloc : extractOrderIdFromLocation env.first_response.location = none)
    (hrec : env.recent_orders = .ok [] ∨ ∃ e, env.recent_orders = .error e) :
    place_10wide_credit_spread cfg date k_short k_long option_type quantity
        order_price env =
      { result := Except.ok pendingAcceptedResponse, posts := 1,
        account_lookups := 1 } := by
  have hg : ¬ (cfg.DRY_RUN = true ∨ cfg.ENABLE_LIVE_TRADING = false) := by
    simp [hdry, hlive]
  simp only [place_10wide_credit_spread, hacct]
  rw [if_neg hg]
  simp only [if_neg h401]
  rw [if_neg (not_le.mpr hsucc), if_pos hempty, hloc]
  rcases hrec with hrec | ⟨e, hrec⟩ <;> rw [hrec] <;> rfl

/-- Witness for `c9_ambiguous_submission` at the concrete ambiguous broker
environment. -/
theorem c9_ambiguous_submission_witness :
    liveConfig.DRY_RUN = false
    ∧ place_10wide_credit_spread liveConfig "251113" 5435 5425 "PUT" 5 (47/10)
        ambiguousBrokerEnv =
      { result := Except.ok pendingAcceptedResponse, posts := 1,
        account_lookups := 1 } :=
  ⟨rfl,
   c9_ambiguous_submission liveConfig "251113" 5435 5425 "PUT" 5 (47/10)
     ambiguousBrokerEnv "ABC123" rfl rfl rfl (by decide) (by decide)
     (Or.inl rfl) rfl (Or.inl rfl)⟩

/-- **C2.** The Step-B selector as implemented examines `candles[0]` rather
than the candle whose `bar_start` equals the intended window start: on a
session whose 10:00 bar closes at 6930, below `ORL = 6932`, while the adapter
also returns the 09:30 opening-range bar first, the implementation sees the
09:30 bar's close (6935), declares no breakout in any window, and ends the
day with no trade — whereas the required exact-`bar_start` selection declares
the breakout on the 10:00 bar with `SPX_entry = 6930`. -/
theorem c2_candle_selection :
    step_b_bearish_orl_breakout (α := StepBTrigger) sessionOR sessionFetch some =
      none
    ∧ step_b_bearish_orl_breakout_by_bar_start (α := StepBTrigger) sessionOR
        sessionFetch some = some (mkStepBTrigger 6930)
    ∧ sessionBreakoutBar.close < sessionOR.ORL
    ∧ ((sessionFetch (10, 0, 10, 30)).head? = some sessionORBar
        ∧ ¬ sessionORBar.close < sessionOR.ORL) := by
  refine ⟨rfl, rfl, ?_, rfl, ?_⟩
  · show (6930 : ℚ) < 6932
    norm_num
  · show ¬ (6935 : ℚ) < 6932
    norm_num

end SpxBot
